import Mathlib

/-
Verification of akeamc/ffmpeg-cli (src/src/lib.rs) against its
natural-language specification.

The embedding models the pure/deterministic content of the library:
  * the invocation builder FfmpegBuilder::to_command (argument list and
    stdio-redirection declarations),
  * the spawn wiring that records which child handles are piped,
  * the progress-protocol parser read_progress as a function over the
    sequence of line-read events on the progress socket,
  * the control flow of Ffmpeg::wait as a function of the session shape,
    the copy-task results, the race outcome, and the child exit status.

Side effects that cannot occur in a pure model (printing, actual byte
copying, process reaping) are erased; every branch decision, every panic
site and every channel send of the source is kept.
-/

namespace FfmpegCli

/-- One I/O direction of the invocation: a file path or a live stream
(enums Input and Output in src/src/lib.rs; only the variant and the path
matter to the argument builder, the borrowed stream handle carries no data
relevant to the model). -/
inductive IOTarget where
  | file (path : String)
  | stream
  deriving DecidableEq

/-- The builder fields of FfmpegBuilder (src/src/lib.rs lines 55-65). -/
structure FfmpegBuilder where
  global_options : List String
  input_options : List String
  input : IOTarget
  output_options : List String
  output : IOTarget

/-- The observable content of the tokio Command value built by to_command:
program name, argument list in order, and whether stdin/stdout were declared
pipe-redirected via Stdio::piped(). -/
structure Command where
  program : String
  args : List String
  stdin_piped : Bool
  stdout_piped : Bool
  deriving DecidableEq

/-- FfmpegBuilder::to_command (src/src/lib.rs lines 72-105): pushes
-progress and the address, then global options, input options, -i, the
input locator (setting Stdio::piped on stdin exactly in the Stream arm),
then output options and the output locator (setting Stdio::piped on stdout
exactly in the Stream arm). -/
def to_command (b : FfmpegBuilder) (progress_url : String) : Command :=
  let base := ["-progress", progress_url] ++ b.global_options ++ b.input_options ++ ["-i"]
  let inPart : List String × Bool :=
    match b.input with
    | IOTarget.file p => ([p], false)
    | IOTarget.stream => (["pipe:0"], true)
  let outPart : List String × Bool :=
    match b.output with
    | IOTarget.file p => ([p], false)
    | IOTarget.stream => (["pipe:1"], true)
  { program := "ffmpeg",
    args := base ++ inPart.1 ++ b.output_options ++ outPart.1,
    stdin_piped := inPart.2,
    stdout_piped := outPart.2 }

/-- Modelled from the spec wording of section 4.2: the input locator is
pipe:0 if streaming, else the path. Used only to state the refinement
claim about the argument order. -/
def inputLocator : IOTarget → String
  | IOTarget.file p => p
  | IOTarget.stream => "pipe:0"

/-- Modelled from the spec wording of section 4.2: the output locator is
pipe:1 if streaming, else the path. -/
def outputLocator : IOTarget → String
  | IOTarget.file p => p
  | IOTarget.stream => "pipe:1"

/-- The progress record (struct Progress, src/src/lib.rs lines 164-167);
Default gives total_size = None. -/
structure Progress where
  total_size : Option Nat
  deriving DecidableEq

/-- str::split_once over an explicit character list: splits at the first
equals sign into the part before and the whole remainder after it. -/
def splitOnceGo (acc : List Char) : List Char → Option (String × String)
  | [] => none
  | c :: rest =>
      if c = '=' then some (String.mk acc.reverse, String.mk rest)
      else splitOnceGo (c :: acc) rest

/-- line.split_once of the equals character as used at src/src/lib.rs
line 135. -/
def splitOnce (s : String) : Option (String × String) :=
  splitOnceGo [] s.data

/-- u64::from_str as invoked by v.parse() at src/src/lib.rs line 138: an
optional leading plus sign, then one or more ASCII digits, and the value
must fit in 64 bits; anything else fails to parse. -/
def parseU64 (s : String) : Option Nat :=
  let cs : List Char :=
    match s.data with
    | '+' :: rest => rest
    | other => other
  if cs = [] then none
  else if cs.all Char.isDigit then
    let n := cs.foldl (fun a c => a * 10 + (c.toNat - 48)) 0
    if n < 2 ^ 64 then some n else none
  else none

/-- One event observed by the lines.next_line loop: a successfully read
line, or an I/O error from the underlying stream (the stream ends cleanly
after the last event of the list). -/
inductive ReadEvent where
  | line (s : String)
  | ioError
  deriving DecidableEq

/-- How the parser task finishes: the loop ends normally, or a panic from
one of the two unwrap sites in read_progress. -/
inductive Outcome where
  | normal
  | panicked (msg : String)
  deriving DecidableEq

/-- The observable result of one run of read_progress: `sent` is the list
of records pushed through the channel sender tx, `frames` is the list of
records observed (dbg-printed) at each sentinel line just before the reset,
and `outcome` tells whether the task ended normally or panicked. -/
structure ParseRun where
  sent : List Progress
  frames : List Progress
  outcome : Outcome
  deriving DecidableEq

/-- The loop body of read_progress (src/src/lib.rs lines 129-151), one
event at a time. Faithful points: lines.next_line is unwrapped, so an I/O
error panics; a line without an equals sign is skipped; key total_size
parses the value with unwrap (panicking if the parse fails) and overwrites
the field; key progress dbg-prints the current record and resets it to
default; any other key only logs. The sender tx is a parameter of the Rust
function but is never invoked anywhere in its body, so no branch appends
to `sent`. -/
def readProgressGo : Progress → List Progress → List Progress → List ReadEvent → ParseRun
  | _, sent, frames, [] => ⟨sent, frames, Outcome.normal⟩
  | _, sent, frames, ReadEvent.ioError :: _ =>
      ⟨sent, frames, Outcome.panicked ("called Result unwrap on an Err value")⟩
  | p, sent, frames, ReadEvent.line l :: rest =>
      match splitOnce l with
      | none => readProgressGo p sent frames rest
      | some (k, v) =>
        if k = "total_size" then
          match parseU64 v with
          | some n => readProgressGo { p with total_size := some n } sent frames rest
          | none => ⟨sent, frames, Outcome.panicked ("called Result unwrap on an Err value")⟩
        else if k = "progress" then
          readProgressGo (Progress.mk none) sent (frames ++ [p]) rest
        else
          readProgressGo p sent frames rest

/-- read_progress: run the loop from the default record with empty output
lists. -/
def read_progress (events : List ReadEvent) : ParseRun :=
  readProgressGo (Progress.mk none) [] [] events

/-- The session handed back by FfmpegBuilder::spawn (struct Ffmpeg,
src/src/lib.rs lines 153-162): the two I/O targets moved out of the
builder, plus whether child.stdin / child.stdout are Some (they are piped
handles exactly when the command declared the redirection). -/
structure Ffmpeg where
  input : IOTarget
  output : IOTarget
  stdinHandle : Bool
  stdoutHandle : Bool
  deriving DecidableEq

/-- FfmpegBuilder::spawn (src/src/lib.rs lines 107-126), restricted to its
pure wiring: the child is spawned from to_command, so a piped handle is
present on the child exactly when the corresponding redirection was
declared. -/
def spawn (b : FfmpegBuilder) (progress_url : String) : Ffmpeg :=
  let cmd := to_command b progress_url
  { input := b.input, output := b.output,
    stdinHandle := cmd.stdin_piped, stdoutHandle := cmd.stdout_piped }

/-- ExitStatus::success as used at src/src/lib.rs line 207: true exactly
for exit code 0 (a signal termination carries no code and is not a
success). -/
def exitSuccess (exitCode : Option Nat) : Bool :=
  exitCode == some 0

/-- How a call to Ffmpeg::wait finishes: a returned Ok, a returned error
value, or a panic. -/
inductive WaitOutcome where
  | ok
  | err (msg : String)
  | panicked (msg : String)
  deriving DecidableEq

/-- Ffmpeg::wait (src/src/lib.rs lines 174-212) as a function of the
session, the results of the two stream-copy bodies (consulted only for a
Stream target: a File arm returns Ok without copying), which side of the
select race finishes first (`exitFirst` true means the child-exit arm wins
and the copy futures are dropped), and the child exit code. Faithful
points: child.stdout.take() is unwrapped first, then child.stdin.take(),
each panicking when the handle is absent; when the copy arm wins, the
drain result is rethrown before the fill result; afterwards the child is
waited on again and a non-success status panics with the message ffmpeg
failed. -/
def wait (f : Ffmpeg) (copyOutRes copyInRes : Except String Unit)
    (exitFirst : Bool) (exitCode : Option Nat) : WaitOutcome :=
  if f.stdoutHandle = false then
    WaitOutcome.panicked ("called Option unwrap on a None value")
  else if f.stdinHandle = false then
    WaitOutcome.panicked ("called Option unwrap on a None value")
  else if exitFirst then
    if exitSuccess exitCode then WaitOutcome.ok
    else WaitOutcome.panicked ("ffmpeg failed")
  else
    let drain : Except String Unit :=
      match f.output with
      | IOTarget.file _ => Except.ok ()
      | IOTarget.stream => copyOutRes
    let fill : Except String Unit :=
      match f.input with
      | IOTarget.file _ => Except.ok ()
      | IOTarget.stream => copyInRes
    match drain with
    | Except.error e => WaitOutcome.err e
    | Except.ok _ =>
      match fill with
      | Except.error e => WaitOutcome.err e
      | Except.ok _ =>
        if exitSuccess exitCode then WaitOutcome.ok
        else WaitOutcome.panicked ("ffmpeg failed")

/-- C3: for every invocation spec and progress address the built argument
sequence is exactly the progress flag with the address, then the global
options, the input options, the -i flag with the input locator, the output
options, and the output locator, in that order, each list kept in its own
order. -/
theorem c3_argument_order (b : FfmpegBuilder) (url : String) :
    (to_command b url).args =
      ["-progress", url] ++ b.global_options ++ b.input_options ++
        ["-i", inputLocator b.input] ++ b.output_options ++ [outputLocator b.output] := by
  obtain ⟨g, io, inp, oo, outp⟩ := b
  cases inp <;> cases outp <;> simp [to_command, inputLocator, outputLocator]

/-- C4: the built process descriptor declares stdin pipe-redirected iff the
input target is a stream, and stdout pipe-redirected iff the output target
is a stream; file targets never declare a redirection. -/
theorem c4_redirection_iff (b : FfmpegBuilder) (url : String) :
    ((to_command b url).stdin_piped = true ↔ b.input = IOTarget.stream) ∧
    ((to_command b url).stdout_piped = true ↔ b.output = IOTarget.stream) := by
  obtain ⟨g, io, inp, oo, outp⟩ := b
  cases inp <;> cases outp <;> simp [to_command]

/-- C1: evaluating the parser on the two lines total_size=12345 and
progress=continue shows the divergence: the record observed at the
sentinel does carry total_size = 12345, but nothing is ever pushed on the
output channel (the sender is unused in the source), so the queue the
Session holds receives zero records rather than the claimed one. -/
theorem c1_no_queue_emission :
    read_progress
        [ReadEvent.line ("total_size=12345"), ReadEvent.line ("progress=continue")] =
      ⟨[], [Progress.mk (some 12345)], Outcome.normal⟩ := by
  decide

/-- C8: two consecutive sentinel lines with no intervening keys: the reset
behaviour itself holds (both records observed at the sentinels are empty,
so fields never carry over between frames), but the records are only
dbg-printed, never emitted to the queue, whose sent list stays empty. -/
theorem c8_reset_between_frames :
    read_progress
        [ReadEvent.line ("progress=continue"), ReadEvent.line ("progress=end")] =
      ⟨[], [Progress.mk none, Progress.mk none], Outcome.normal⟩ := by
  decide

/-- C5: a failed read on the progress stream makes the parser task panic
at the next_line unwrap instead of failing with a typed protocol-read
error; a cleanly closed stream does end the task normally. -/
theorem c5_read_error_panics :
    (read_progress [ReadEvent.ioError]).outcome =
        Outcome.panicked ("called Result unwrap on an Err value") ∧
    (read_progress []).outcome = Outcome.normal := by
  decide

/-- C6: a total_size line whose value does not parse as an unsigned 64-bit
integer makes the parser task panic at the parse unwrap, so the task does
not keep running. -/
theorem c6_bad_number_panics :
    (read_progress [ReadEvent.line ("total_size=abc")]).outcome =
      Outcome.panicked ("called Result unwrap on an Err value") := by
  decide

/-- C2: evaluating wait on the session the repository test itself builds
(file input, file output, empty option lists) with a successful child exit:
wait panics at the stdout-handle unwrap because no pipe was declared,
instead of treating the file directions as no-ops. -/
theorem c2_file_session_panics :
    wait
        (spawn
          { global_options := [], input_options := [],
            input := IOTarget.file ("video.webm"), output_options := [],
            output := IOTarget.file ("test2.mp3") }
          ("unix:///tmp/dir/sock"))
        (Except.ok ()) (Except.ok ()) false (some 0) =
      WaitOutcome.panicked ("called Option unwrap on a None value") := by
  decide

/-- C7: whenever wait reaches the exit-status check (both piped handles
present, both copy bodies successful), a child exit code of 0 returns
success and any other exit status is escalated as the panic ffmpeg failed,
not as a returned error value; this holds on both sides of the race. -/
theorem c7_exit_status (f : Ffmpeg) (exitFirst : Bool) (exitCode : Option Nat)
    (hOut : f.stdoutHandle = true) (hIn : f.stdinHandle = true) :
    wait f (Except.ok ()) (Except.ok ()) exitFirst exitCode =
      if exitCode = some 0 then WaitOutcome.ok
      else WaitOutcome.panicked ("ffmpeg failed") := by
  obtain ⟨inp, outp, sh, oh⟩ := f
  subst hOut
  subst hIn
  by_cases h : exitCode = some 0 <;>
    cases inp <;> cases outp <;> cases exitFirst <;>
      simp [wait, exitSuccess, h]

/-- Witness for C7 at a concrete session and a failing exit code. -/
theorem c7_exit_status_witness :
    wait
        { input := IOTarget.stream, output := IOTarget.stream,
          stdinHandle := true, stdoutHandle := true }
        (Except.ok ()) (Except.ok ()) true (some 1) =
      if some 1 = some (0 : Nat) then WaitOutcome.ok
      else WaitOutcome.panicked ("ffmpeg failed") :=
  c7_exit_status
    { input := IOTarget.stream, output := IOTarget.stream,
      stdinHandle := true, stdoutHandle := true }
    true (some 1) rfl rfl

/-- C9: a line whose key, the part before the first equals sign, is neither
total_size nor progress leaves the in-progress record and both output lists
unchanged, emits nothing, and the parser continues normally with the
remaining events. -/
theorem c9_unknown_key (p : Progress) (sent frames : List Progress)
    (l k v : String) (rest : List ReadEvent)
    (hsplit : splitOnce l = some (k, v))
    (hk1 : k ≠ "total_size") (hk2 : k ≠ "progress") :
    readProgressGo p sent frames (ReadEvent.line l :: rest) =
      readProgressGo p sent frames rest := by
  simp [readProgressGo, hsplit, hk1, hk2]

/-- Witness for C9 on the concrete line speed=1.2x with a non-empty record
in progress. -/
theorem c9_unknown_key_witness :
    splitOnce ("speed=1.2x") = some ("speed", "1.2x") ∧
    readProgressGo (Progress.mk (some 7)) [] [] [ReadEvent.line ("speed=1.2x")] =
      readProgressGo (Progress.mk (some 7)) [] [] [] :=
  ⟨by decide,
    c9_unknown_key (Progress.mk (some 7)) [] [] ("speed=1.2x") ("speed") ("1.2x") []
      (by decide) (by decide) (by decide)⟩

end FfmpegCli
